import Mathlib

/-!
Verification of `hummingbot/smart_components/controllers/market_making_controller_base.py`.

Shallow embedding conventions:
* Python `float` is modelled by `ℚ` (exact rational arithmetic; the spec reasons
  about exact values such as `price = 99`).
* Python strings are modelled as `List Char`; `str.split`, `int(...)`, f-strings
  and `str.upper()` are implemented over `List Char`.
* Fallible Python code is modelled with `Except PyError`; the error constructors
  mirror the Python exception classes that can escape the modelled code.
* Mutation of the pydantic config object is modelled by explicit state passing;
  `update_parameters` returns the (possibly partially mutated) final state
  together with the outcome, because a Python exception leaves the object in
  whatever state the statements executed so far produced.
-/

/-- Exception classes that the modelled Python code can raise. -/
inductive PyError
  /-- Python `ValueError` (malformed numeric token, tuple-unpack mismatch, length mismatch). -/
  | valueError
  /-- Pydantic `ValidationError`: a `ValueError` raised inside a validator during
  model construction is wrapped by pydantic v1 into a `ValidationError`. -/
  | validationError
  /-- Python `ZeroDivisionError`: pydantic v1 does not wrap arithmetic errors, so a division
  by zero inside a validator escapes unwrapped. -/
  | zeroDivisionError
  /-- Python `IndexError` from list indexing out of range. -/
  | indexError
  /-- Python `KeyError` from an enum lookup `TradeType[s]` with an unknown member name. -/
  | keyError
  /-- Python `AttributeError`: in particular `field.name` when `field` is a plain
  `str` (the field-name string `update_parameters` passes at source line 124)
  rather than a pydantic Field object. -/
  | attributeError
deriving DecidableEq, Repr

/-- Shorthand turning a Lean string literal into the `List Char` representation
used for Python strings throughout this development. -/
def strL (s : String) : List Char := s.toList

/-- Python list indexing `l[i]` with an `int` index: negative indices count from the
end, and an index out of range raises `IndexError`. -/
def pyIndex {α : Type} (l : List α) (i : ℤ) : Except PyError α :=
  let j : ℤ := if i < 0 then i + l.length else i
  if 0 ≤ j then
    match l.get? j.toNat with
    | some a => .ok a
    | none => .error .indexError
  else .error .indexError

/-- Value of a decimal digit character, `none` on a non-digit
(mirrors what `int(...)` accepts per character). -/
def digitVal (c : Char) : Option ℕ :=
  if 48 ≤ c.toNat ∧ c.toNat ≤ 57 then some (c.toNat - 48) else none

/-- Accumulator loop of decimal parsing: processes the digits left to right,
failing on the first non-digit character. -/
def parseNatAux : ℕ → List Char → Option ℕ
  | acc, [] => some acc
  | acc, c :: rest =>
    match digitVal c with
    | some d => parseNatAux (acc * 10 + d) rest
    | none => none

/-- Parse a non-empty all-digit string as a natural number (the non-negative case
of Python `int(s)`). -/
def parseNatDigits (s : List Char) : Option ℕ :=
  if s = [] then none else parseNatAux 0 s

/-- Python `int(s)`: an optional leading minus sign followed by decimal digits
(`ValueError`, i.e. `none`, on the empty string, a bare sign, or a non-digit). -/
def parseInt : List Char → Option ℤ
  | [] => none
  | c :: rest =>
    if c = '-' then (parseNatDigits rest).map (fun n => -(n : ℤ))
    else (parseNatDigits (c :: rest)).map (fun n => (n : ℤ))

/-- Fuel-driven loop of the decimal rendering; `fuel > n` always suffices because
the recursion divides `n` by ten. Structural recursion on the fuel keeps the
definition kernel-reducible. -/
def natReprAux : ℕ → ℕ → List Char
  | 0, _ => []
  | fuel + 1, n =>
    if n < 10 then [Char.ofNat (48 + n)]
    else natReprAux fuel (n / 10) ++ [Char.ofNat (48 + n % 10)]

/-- Decimal rendering of a natural number, as produced by Python `str(n)` /
f-string interpolation of a non-negative `int`. -/
def natRepr (n : ℕ) : List Char := natReprAux (n + 1) n

/-- Python `str.split(sep)` for a single-character separator. -/
def pySplit (sep : Char) : List Char → List (List Char)
  | [] => [[]]
  | c :: rest =>
    if c = sep then [] :: pySplit sep rest
    else
      match pySplit sep rest with
      | [] => [[c]]
      | t :: ts => (c :: t) :: ts

/-- Python `str.upper()`. -/
def pyUpper (s : List Char) : List Char := s.map Char.toUpper

/-- Python `str.lower()`. -/
def pyLower (s : List Char) : List Char := s.map Char.toLower

/-- Python `str.startswith(p)`. -/
def pyStartsWith : List Char → List Char → Bool
  | [], _ => true
  | _ :: _, [] => false
  | p :: ps, c :: cs => p == c && pyStartsWith ps cs

/-- Modelled from the spec: `TradeType` lives in `hummingbot.core.data_type.common`
(not under `src/`); the spec's data model uses the side enumeration `{Buy, Sell}`
(`LevelSpec.side`, §3). It is a plain Python `Enum` (member lookup
`TradeType[name]` is used by the source at line 234). -/
inductive TradeType
  | BUY
  | SELL
deriving DecidableEq, Repr

/-- Python `TradeType.name` for the modelled members. -/
def TradeType.pyName : TradeType → List Char
  | .BUY => strL "BUY"
  | .SELL => strL "SELL"

/-- Python member lookup `TradeType[s]` (raises `KeyError` on a non-member name,
modelled by `none`). -/
def TradeType.fromMemberName (s : List Char) : Option TradeType :=
  if s = strL "BUY" then some .BUY
  else if s = strL "SELL" then some .SELL
  else none

/-- Python `==` between a `str` (the first component of `level_id.split('_')`) and a
member of the plain enum `TradeType`: a string never equals an enum member, so the
comparison is always `False`. The source relies on this comparison at line 237. -/
def pyStrEqTradeType (_ : List Char) (_ : TradeType) : Bool := false

/-- Modelled from the spec: `PositionMode` (HEDGE/ONEWAY) from
`hummingbot.core.data_type.common`, not under `src/`. -/
inductive PositionMode
  | HEDGE
  | ONEWAY
deriving DecidableEq, Repr

/-- Modelled from the spec: `SmartComponentStatus` from
`hummingbot.smart_components.models.base` (not under `src/`); the spec's
`ExecutorInfo.status` is `{Active, Trading, Terminated, ...}` and the source only
discriminates on `TERMINATED`. -/
inductive SmartComponentStatus
  | NOT_STARTED
  | ACTIVE
  | TERMINATED
deriving DecidableEq, Repr

/-- Modelled from the spec: the read-only executor snapshot record (§3
`ExecutorInfo`), owned externally; the source reads exactly these fields.
`custom_level_id` stands for `custom_info["level_id"]`. -/
structure ExecutorInfo where
  id : List Char
  trade_type : TradeType
  status : SmartComponentStatus
  is_active : Bool
  is_trading : Bool
  timestamp : ℚ
  close_timestamp : ℚ
  custom_level_id : List Char
deriving DecidableEq, Repr

/-- Modelled from the spec: `get_executor_config` is an abstract extension point
(`NotImplementedError` in the base class; §6 requires a concrete strategy to
supply it). It is modelled as the injective record of the three arguments the
source passes to it (`level_id`, `price`, `amount_in_quote`). -/
structure ExecutorConfigModel where
  level_id : List Char
  price : ℚ
  amount : ℚ
deriving DecidableEq, Repr

/-- The tagged action variant emitted by the controller:
`CreateExecutorAction(controller_id=..., executor_config=...)` or
`StopExecutorAction(executor_id=...)`
(from `hummingbot.smart_components.models.executor_actions`, modelled from the
spec's `Action` data model, §3). -/
inductive ExecutorAction
  | create (controller_id : List Char) (executor_config : ExecutorConfigModel)
  | stop (executor_id : List Char)
deriving DecidableEq, Repr

/-- Whether an action is a `CreateExecutorAction`. -/
def ExecutorAction.isCreate : ExecutorAction → Bool
  | .create _ _ => true
  | .stop _ => false

/-- Whether an action is a `StopExecutorAction`. -/
def ExecutorAction.isStop : ExecutorAction → Bool
  | .create _ _ => false
  | .stop _ => true

/-- The level id carried by a `CreateExecutorAction` (inside its executor config). -/
def ExecutorAction.levelId : ExecutorAction → Option (List Char)
  | .create _ ec => some ec.level_id
  | .stop _ => none

/-- Raw user input for a spread field, `Union[List[float], str]`: either an already
parsed numeric list or a comma-separated string, modelled as its list of tokens
(`none` is a token on which `float(...)` raises `ValueError`). -/
inductive RawFloats
  | lst (v : List ℚ)
  | str (toks : List (Option ℚ))
deriving DecidableEq, Repr

/-- Raw user input for an amounts field, `Union[List[int], str]` (the surrounding
`Optional` is modelled at the use sites): either a parsed integer list or a
comma-separated string modelled as its tokens (`none` is a token on which
`int(...)` raises `ValueError`). -/
inductive RawInts
  | lst (v : List ℤ)
  | str (toks : List (Option ℤ))
deriving DecidableEq, Repr

/-- The `isinstance(v, str)` branch of `parse_and_validate_amounts`: a string is
parsed token by token with `int` (`none` on the first malformed token); a list
input passes through. -/
def RawInts.parse : RawInts → Option (List ℤ)
  | .lst l => some l
  | .str toks => toks.mapM (fun t => t)

/-- The validated `MarketMakingControllerConfigBase`. The string fields
`connector_name` / `trading_pair` and the `id` inherited from
`ControllerConfigBase` are carried opaquely; amounts are stored as `ℚ`
(Python stores `List[int]` raw weights which the root validator replaces by
`float` fractions). -/
structure MarketMakingControllerConfigBase where
  id : List Char
  connector_name : List Char
  trading_pair : List Char
  total_amount_quote : ℚ
  buy_spreads : List ℚ
  buy_amounts_pct : List ℚ
  sell_spreads : List ℚ
  sell_amounts_pct : List ℚ
  executor_refresh_time : ℚ
  cooldown_time : ℤ
  leverage : ℤ
  position_mode : PositionMode
  closed_executors_buffer : ℤ
deriving DecidableEq, Repr

namespace MarketMakingControllerConfigBase

/-- Validator `parse_spreads` (source lines 81-85): a string input is split on
commas and every token parsed with `float`; a list input passes through. -/
def parse_spreads : RawFloats → Except PyError (List ℚ)
  | .lst v => .ok v
  | .str toks =>
    match toks.mapM (fun t => t) with
    | some v => .ok v
    | none => .error .valueError

/-- Validator `parse_and_validate_amounts` (source lines 87-97) as invoked by
pydantic during model construction, where `field` is a real `ModelField` whose
`.name` works: a string input is parsed as comma-separated ints; a `None` input
defaults to weight `1` per level of the side's spreads; otherwise the length must
match the side's spreads. (The *direct* call from `update_parameters`, which
passes the field-name string instead, is `parse_and_validate_amounts_direct`.) -/
def parse_and_validate_amounts (v : Option RawInts) (spreads : List ℚ) :
    Except PyError (List ℚ) :=
  match v with
  | none => .ok (List.replicate spreads.length 1)
  | some raw =>
    match raw.parse with
    | none => .error .valueError
    | some l =>
      if l.length ≠ spreads.length then .error .valueError
      else .ok (l.map (fun (a : ℤ) => (a : ℚ)))

/-- The validator `parse_and_validate_amounts` as called *directly* by
`update_parameters` (source line 124): the `field` argument is the field-name
*string* `'buy_amounts_pct'` / `'sell_amounts_pct'`, not a pydantic Field
object. `v` is not `None` on this path (guarded at source line 123), so after
the `isinstance(v, str)` parse (whose `int` conversion can raise `ValueError` on
a malformed token, source line 90), execution reaches
`values[field.name.replace(...)]` (source line 94) and `field.name` on a `str`
raises `AttributeError`: the length check is unreachable and the call never
returns a value. -/
def parse_and_validate_amounts_direct (raw : RawInts) : Except PyError (List ℚ) :=
  match raw.parse with
  | none => .error .valueError
  | some _ => .error .attributeError

/-- One side of the root validator `normalize_amounts` (source lines 99-110):
`[amt / total for amt in amounts]`. On a non-empty list whose sum is zero the
first division raises `ZeroDivisionError`; on an empty list no division is ever
evaluated. -/
def normalize_side (l : List ℚ) : Except PyError (List ℚ) :=
  if l.sum = 0 ∧ l ≠ [] then .error .zeroDivisionError
  else .ok (l.map (fun amt => amt / l.sum))

/-- Root validator `normalize_amounts` (source lines 99-110): normalizes the buy
amounts first, then the sell amounts. -/
def normalize_amounts (buy sell : List ℚ) : Except PyError (List ℚ × List ℚ) := do
  let nb ← normalize_side buy
  let ns ← normalize_side sell
  .ok (nb, ns)

/-- Pydantic v1 wraps a `ValueError` raised inside a validator into a
`ValidationError` during model construction; other exceptions
(in particular `ZeroDivisionError`) escape unwrapped. -/
def pydanticWrap : PyError → PyError
  | .valueError => .validationError
  | e => e

/-- Construction of a `MarketMakingControllerConfigBase` from raw input: runs the
field validators in field order (`parse_spreads` for each side, then
`parse_and_validate_amounts` against that side's parsed spreads, the `gt=0`
constraint on `closed_executors_buffer`), then the root validator
`normalize_amounts`; the first failure aborts. `ValueError`s from validators
surface as pydantic `ValidationError`s, a `ZeroDivisionError` escapes unwrapped.
The `position_mode` member is taken already parsed (its string validator
`validate_position_mode`, source lines 112-116, is outside the claims). -/
def build (id connector_name trading_pair : List Char) (total_amount_quote : ℚ)
    (raw_buy_spreads : RawFloats) (raw_buy_amounts_pct : Option RawInts)
    (raw_sell_spreads : RawFloats) (raw_sell_amounts_pct : Option RawInts)
    (executor_refresh_time : ℚ) (cooldown_time leverage : ℤ)
    (position_mode : PositionMode) (closed_executors_buffer : ℤ) :
    Except PyError MarketMakingControllerConfigBase :=
  match parse_spreads raw_buy_spreads with
  | .error e => .error (pydanticWrap e)
  | .ok bs =>
  match parse_and_validate_amounts raw_buy_amounts_pct bs with
  | .error e => .error (pydanticWrap e)
  | .ok ba =>
  match parse_spreads raw_sell_spreads with
  | .error e => .error (pydanticWrap e)
  | .ok ss =>
  match parse_and_validate_amounts raw_sell_amounts_pct ss with
  | .error e => .error (pydanticWrap e)
  | .ok sa =>
  if closed_executors_buffer ≤ 0 then .error .validationError
  else
    match normalize_amounts ba sa with
    | .error e => .error e
    | .ok (nb, ns) =>
      .ok {
        id := id
        connector_name := connector_name
        trading_pair := trading_pair
        total_amount_quote := total_amount_quote
        buy_spreads := bs
        buy_amounts_pct := nb
        sell_spreads := ss
        sell_amounts_pct := ns
        executor_refresh_time := executor_refresh_time
        cooldown_time := cooldown_time
        leverage := leverage
        position_mode := position_mode
        closed_executors_buffer := closed_executors_buffer }

/-- The side's spreads field selected by `trade_type` (`buy_spreads` /
`sell_spreads`, source lines 119 and 122). -/
def getSpreads (cfg : MarketMakingControllerConfigBase) : TradeType → List ℚ
  | .BUY => cfg.buy_spreads
  | .SELL => cfg.sell_spreads

/-- The side's amounts field selected by `trade_type`. -/
def getAmounts (cfg : MarketMakingControllerConfigBase) : TradeType → List ℚ
  | .BUY => cfg.buy_amounts_pct
  | .SELL => cfg.sell_amounts_pct

/-- Python `setattr(self, spreads_field, v)` for the side selected by `trade_type`. -/
def setSpreads (cfg : MarketMakingControllerConfigBase) (tt : TradeType)
    (v : List ℚ) : MarketMakingControllerConfigBase :=
  match tt with
  | .BUY => { cfg with buy_spreads := v }
  | .SELL => { cfg with sell_spreads := v }

/-- Python `setattr(self, amounts_pct_field, v)` for the side selected by `trade_type`. -/
def setAmounts (cfg : MarketMakingControllerConfigBase) (tt : TradeType)
    (v : List ℚ) : MarketMakingControllerConfigBase :=
  match tt with
  | .BUY => { cfg with buy_amounts_pct := v }
  | .SELL => { cfg with sell_amounts_pct := v }

/-- Last statement of `update_parameters` (source line 127):
`self.normalize_amounts(self.__dict__)` rewrites `buy_amounts_pct` in place and
then `sell_amounts_pct` in place; a `ZeroDivisionError` on the buy side leaves
both sides untouched, one on the sell side leaves the buy side already
normalized. `cfg2` is the object state after both `setattr` statements. -/
def update_parameters_normalize (cfg2 : MarketMakingControllerConfigBase) :
    Option PyError × MarketMakingControllerConfigBase :=
  match normalize_side cfg2.buy_amounts_pct with
  | .error e => (some e, cfg2)
  | .ok nb =>
    let cfg3 := { cfg2 with buy_amounts_pct := nb }
    match normalize_side cfg3.sell_amounts_pct with
    | .error e => (some e, cfg3)
    | .ok ns => (none, { cfg3 with sell_amounts_pct := ns })

/-- Middle of `update_parameters` (source lines 123-126): with the new spreads
already assigned (`cfg1`), either call the validator directly on the given new
amounts — which always raises (`ValueError` or `AttributeError`, see
`parse_and_validate_amounts_direct`), leaving `cfg1` as the final state — or, for
`None`, default to equal weights; on success assign them and normalize. Only the
`None` branch can reach the normalization. -/
def update_parameters_amounts (cfg1 : MarketMakingControllerConfigBase)
    (trade_type : TradeType) (new_amounts_pct : Option RawInts) :
    Option PyError × MarketMakingControllerConfigBase :=
  match
    (match new_amounts_pct with
     | some raw => parse_and_validate_amounts_direct raw
     | none => .ok (List.replicate (cfg1.getSpreads trade_type).length 1)) with
  | .error e => (some e, cfg1)
  | .ok am => update_parameters_normalize (cfg1.setAmounts trade_type am)

/-- Method `update_parameters` (source lines 118-127). Python mutates `self` statement by
statement, so the result is the pair (outcome, final object state): an exception
part-way leaves the fields already assigned. First
`setattr(spreads_field, parse_spreads(new_spreads))` (a parse failure leaves the
config untouched), then the amounts statement and the in-place normalization
(`update_parameters_amounts` / `update_parameters_normalize`). Errors propagate
unwrapped (no pydantic model construction is involved here). -/
def update_parameters (cfg : MarketMakingControllerConfigBase) (trade_type : TradeType)
    (new_spreads : RawFloats) (new_amounts_pct : Option RawInts) :
    Option PyError × MarketMakingControllerConfigBase :=
  match parse_spreads new_spreads with
  | .error e => (some e, cfg)
  | .ok sp => update_parameters_amounts (cfg.setSpreads trade_type sp) trade_type new_amounts_pct

/-- Method `get_spreads_and_amounts_in_quote` (source lines 129-132): the side's spreads
together with each amount fraction scaled by `total_amount_quote`. -/
def get_spreads_and_amounts_in_quote (cfg : MarketMakingControllerConfigBase)
    (trade_type : TradeType) : List ℚ × List ℚ :=
  (cfg.getSpreads trade_type,
   (cfg.getAmounts trade_type).map (fun amt_pct => amt_pct * cfg.total_amount_quote))

end MarketMakingControllerConfigBase

/-- The `MarketMakingControllerBase` state together with the per-cycle inputs the source
reads from its `ControllerBase` parent (not under `src/`, modelled from the
spec §2/§3): `executors_info` is the read-only executor snapshot supplied by the
`ExecutorRegistry`, `reference_price` / `spread_multiplier` are the entries of
`processed_data` (§3 `ProcessedMarketData`), and `now` is the wall-clock value
`time.time()` captured for the cycle (§4.3: a single `now` per cycle). -/
structure MarketMakingControllerBase where
  config : MarketMakingControllerConfigBase
  executors_info : List ExecutorInfo
  reference_price : ℚ
  spread_multiplier : ℚ
  now : ℚ
deriving DecidableEq, Repr

namespace MarketMakingControllerBase

/-- Constant `EXECUTORS_BUFFER = 5` (source line 139). -/
def EXECUTORS_BUFFER : ℕ := 5

/-- Method `filter_executors` from `ControllerBase` (not under `src/`), modelled from the
spec §4.3 step 1: a plain filter of the snapshot list by the given predicate. -/
def filter_executors (executors : List ExecutorInfo)
    (filter_func : ExecutorInfo → Bool) : List ExecutorInfo :=
  executors.filter filter_func

/-- Method `get_level_id_from_side` (source lines 241-245):
`f"{trade_type.name.lower()}_{level}"`. -/
def get_level_id_from_side (trade_type : TradeType) (level : ℕ) : List Char :=
  pyLower trade_type.pyName ++ '_' :: natRepr level

/-- Method `get_trade_type_from_level_id` (source lines 247-248):
`TradeType.BUY if level_id.startswith("buy") else TradeType.SELL`. -/
def get_trade_type_from_level_id (level_id : List Char) : TradeType :=
  if pyStartsWith (strL "buy") level_id then .BUY else .SELL

/-- Method `get_level_from_level_id` (source lines 250-251):
`int(level_id.split('_')[1])`; the indexing can raise `IndexError` and the
`int` conversion `ValueError`. -/
def get_level_from_level_id (level_id : List Char) : Except PyError ℤ :=
  match pyIndex (pySplit '_' level_id) 1 with
  | .error e => .error e
  | .ok s =>
    match parseInt s with
    | some n => .ok n
    | none => .error .valueError

/-- Method `get_price_and_amount` (source lines 229-239). `level_id.split('_')` must
unpack into exactly two parts (otherwise `ValueError`); the side string is looked
up as `TradeType[trade_type.upper()]` (`KeyError` on failure); the level index is
`int(level)` applied to the second part and used for Python list indexing into the
side's spreads and quote amounts; `side_multiplier` compares the *string*
`trade_type` with the enum member `TradeType.BUY`, which is always `False`, so it
is always `1`; the returned amount divides the quote amount by `order_price`
(`ZeroDivisionError` when the price is zero). -/
def get_price_and_amount (self : MarketMakingControllerBase) (level_id : List Char) :
    Except PyError (ℚ × ℚ) :=
  match pySplit '_' level_id with
  | [trade_type, level] =>
    match TradeType.fromMemberName (pyUpper trade_type) with
    | none => .error .keyError
    | some tt =>
      let sa := self.config.get_spreads_and_amounts_in_quote tt
      let spreads := sa.1
      let amounts_quote := sa.2
      let reference_price := self.reference_price
      match parseInt level with
      | none => .error .valueError
      | some lvl =>
        match pyIndex spreads lvl with
        | .error e => .error e
        | .ok sp =>
          let spread_in_pct := sp * self.spread_multiplier
          let side_multiplier : ℚ := if pyStrEqTradeType trade_type tt then -1 else 1
          let order_price := reference_price * (1 + side_multiplier * spread_in_pct)
          match pyIndex amounts_quote lvl with
          | .error e => .error e
          | .ok aq =>
            if order_price = 0 then .error .zeroDivisionError
            else .ok (order_price, aq / order_price)
  | _ => .error .valueError

/-- Method `get_not_active_levels_ids` (source lines 253-261): the buy level ids over
`range(len(buy_spreads))` not contained in `active_levels_ids`, followed by the
sell level ids over `range(len(sell_spreads))` not in `active_levels_ids`. -/
def get_not_active_levels_ids (self : MarketMakingControllerBase)
    (active_levels_ids : List (List Char)) : List (List Char) :=
  let buy_ids_missing :=
    ((List.range self.config.buy_spreads.length).map
      (fun level => get_level_id_from_side .BUY level)).filter
        (fun lid => decide (lid ∉ active_levels_ids))
  let sell_ids_missing :=
    ((List.range self.config.sell_spreads.length).map
      (fun level => get_level_id_from_side .SELL level)).filter
        (fun lid => decide (lid ∉ active_levels_ids))
  buy_ids_missing ++ sell_ids_missing

/-- Method `filter_not_active_levels` (source lines 263-268): the default implementation
returns its input unchanged. -/
def filter_not_active_levels (_ : MarketMakingControllerBase)
    (not_active_levels : List (List Char)) : List (List Char) :=
  not_active_levels

/-- Method `get_executor_config` applied by `create_actions_proposal`. Modelled from the
spec: abstract in the base class (it raises `NotImplementedError`, source lines
223-227; §6 makes it a strategy-supplied extension point), modelled as the
injective record of its arguments. -/
def get_executor_config (level_id : List Char) (price amount_in_quote : ℚ) :
    ExecutorConfigModel :=
  { level_id := level_id, price := price, amount := amount_in_quote }

/-- The `for level_id in levels_to_execute` loop of `create_actions_proposal`
(source lines 169-174): resolves each level's price and amount and appends a
`CreateExecutorAction`; the first exception aborts the whole call. -/
def buildCreateActions (self : MarketMakingControllerBase) :
    List (List Char) → Except PyError (List ExecutorAction)
  | [] => .ok []
  | level_id :: rest =>
    match self.get_price_and_amount level_id with
    | .error e => .error e
    | .ok pa =>
      match buildCreateActions self rest with
      | .error e => .error e
      | .ok actions =>
        .ok (.create self.config.id (get_executor_config level_id pa.1 pa.2) :: actions)

/-- Method `create_actions_proposal` (source lines 155-175): collects the level ids bound
to active buy executors and active sell executors, takes the ladder levels not
among them (as filtered by the `filter_not_active_levels` hook), and emits one
`CreateExecutorAction` per remaining level. -/
def create_actions_proposal (self : MarketMakingControllerBase) :
    Except PyError (List ExecutorAction) :=
  let active_buy_executors := filter_executors self.executors_info
    (fun executor => decide (executor.trade_type = .BUY) && executor.is_active)
  let active_sell_executors := filter_executors self.executors_info
    (fun executor => decide (executor.trade_type = .SELL) && executor.is_active)
  let active_levels_ids :=
    (active_buy_executors ++ active_sell_executors).map (fun e => e.custom_level_id)
  let not_active_levels := self.get_not_active_levels_ids active_levels_ids
  let levels_to_execute := self.filter_not_active_levels not_active_levels
  self.buildCreateActions levels_to_execute

/-- Method `executors_to_refresh` (source lines 199-204): stop every executor that is not
trading, is active, and whose age (`time.time() - timestamp`) exceeds
`executor_refresh_time`. -/
def executors_to_refresh (self : MarketMakingControllerBase) : List ExecutorAction :=
  (filter_executors self.executors_info
    (fun x => !x.is_trading && x.is_active &&
      decide (self.now - x.timestamp > self.config.executor_refresh_time))).map
    (fun executor => .stop executor.id)

/-- Method `executors_to_early_stop` (source lines 206-211): the default implementation
returns no actions. -/
def executors_to_early_stop (_ : MarketMakingControllerBase) : List ExecutorAction :=
  []

/-- Method `stop_actions_proposal` (source lines 177-184): refresh stops followed by
early stops. -/
def stop_actions_proposal (self : MarketMakingControllerBase) : List ExecutorAction :=
  self.executors_to_refresh ++ self.executors_to_early_stop

/-- Insertion step of the model of Python `sorted(key=close_timestamp,
reverse=True)`; only the length of the sorted list is observable in the source. -/
def insertByCloseDesc (e : ExecutorInfo) : List ExecutorInfo → List ExecutorInfo
  | [] => [e]
  | x :: xs =>
    if x.close_timestamp < e.close_timestamp then e :: x :: xs
    else x :: insertByCloseDesc e xs

/-- Model of `sorted(terminated_executors, key=lambda x: x.close_timestamp,
reverse=True)` (source line 194). -/
def sortByCloseTimestampDesc : List ExecutorInfo → List ExecutorInfo
  | [] => []
  | x :: xs => insertByCloseDesc x (sortByCloseTimestampDesc xs)

/-- Method `store_actions_proposal` (source lines 186-197): filter the snapshot to
`status == TERMINATED`, sort that subset by `close_timestamp` descending, and if
its length exceeds `EXECUTORS_BUFFER` emit a `StopExecutorAction` for every
executor of the *full unsorted snapshot* from index `EXECUTORS_BUFFER` on. -/
def store_actions_proposal (self : MarketMakingControllerBase) : List ExecutorAction :=
  let terminated_executors := filter_executors self.executors_info
    (fun x => decide (x.status = .TERMINATED))
  let executors_sorted_by_close_timestamp := sortByCloseTimestampDesc terminated_executors
  if executors_sorted_by_close_timestamp.length > EXECUTORS_BUFFER then
    (self.executors_info.drop EXECUTORS_BUFFER).map (fun executor => .stop executor.id)
  else []

/-- Method `determine_executor_actions` (source lines 145-153): create actions, then stop
actions, then store actions; an exception from the create pass aborts the call. -/
def determine_executor_actions (self : MarketMakingControllerBase) :
    Except PyError (List ExecutorAction) :=
  match self.create_actions_proposal with
  | .error e => .error e
  | .ok creates => .ok (creates ++ self.stop_actions_proposal ++ self.store_actions_proposal)

end MarketMakingControllerBase

/-! Concrete fixtures used to evaluate the embedded code on the inputs named by
the specification's scenarios. Spreads `0.01` / `0.02` are the rationals
`1/100` / `2/100`. -/

/-- A one-level-per-side config: spreads `[0.01]`, equal amounts (normalized to
`[1.0]`), `total_amount_quote = 100`, remaining scalars at their field defaults. -/
def cfgOne : MarketMakingControllerConfigBase :=
  { id := strL "c1"
    connector_name := strL "binance_perpetual"
    trading_pair := strL "WLD-USDT"
    total_amount_quote := 100
    buy_spreads := [1/100]
    buy_amounts_pct := [1]
    sell_spreads := [1/100]
    sell_amounts_pct := [1]
    executor_refresh_time := 300
    cooldown_time := 15
    leverage := 20
    position_mode := .HEDGE
    closed_executors_buffer := 10 }

/-- Controller over `cfgOne` with an empty snapshot, `reference_price = 100`,
`spread_multiplier = 1`. -/
def ctrlOne : MarketMakingControllerBase :=
  { config := cfgOne
    executors_info := []
    reference_price := 100
    spread_multiplier := 1
    now := 0 }

/-- The spec §8 scenario config: `buy_spreads=[0.01,0.02]`,
`sell_spreads=[0.01,0.02]`, equal amounts (normalized to `[1/2, 1/2]` per side),
`total_amount_quote=100`. -/
def cfgScenario : MarketMakingControllerConfigBase :=
  { id := strL "c1"
    connector_name := strL "binance_perpetual"
    trading_pair := strL "WLD-USDT"
    total_amount_quote := 100
    buy_spreads := [1/100, 2/100]
    buy_amounts_pct := [1/2, 1/2]
    sell_spreads := [1/100, 2/100]
    sell_amounts_pct := [1/2, 1/2]
    executor_refresh_time := 300
    cooldown_time := 15
    leverage := 20
    position_mode := .HEDGE
    closed_executors_buffer := 10 }

/-- The spec §8 scenario controller: `cfgScenario`, empty executor snapshot,
`reference_price = 100`, `spread_multiplier = 1`. -/
def ctrlScenario : MarketMakingControllerBase :=
  { config := cfgScenario
    executors_info := []
    reference_price := 100
    spread_multiplier := 1
    now := 0 }

/-- An executor bound to level `buy_0`, active and not terminated. -/
def executorBuy0 : ExecutorInfo :=
  { id := strL "e1"
    trade_type := .BUY
    status := .ACTIVE
    is_active := true
    is_trading := true
    timestamp := 0
    close_timestamp := 0
    custom_level_id := strL "buy_0" }

/-- Controller over `cfgOne` whose snapshot holds exactly the active `buy_0`
executor. -/
def ctrlActiveBuy0 : MarketMakingControllerBase :=
  { config := cfgOne
    executors_info := [executorBuy0]
    reference_price := 100
    spread_multiplier := 1
    now := 0 }

/-! Helper lemmas. -/

namespace MarketMakingControllerConfigBase

lemma getSpreads_setSpreads (cfg : MarketMakingControllerConfigBase) (tt : TradeType)
    (v : List ℚ) : (cfg.setSpreads tt v).getSpreads tt = v := by
  cases tt <;> rfl

lemma sum_map_div (l : List ℚ) (c : ℚ) :
    (l.map (fun x => x / c)).sum = l.sum / c := by
  induction l with
  | nil => simp
  | cons x xs ih => simp [ih, add_div]

lemma normalize_side_sum {l nl : List ℚ} (h : normalize_side l = .ok nl)
    (hne : l ≠ []) : nl.sum = 1 := by
  unfold normalize_side at h
  split at h
  · exact absurd h (by simp)
  · rename_i hcond
    have hsum : l.sum ≠ 0 := fun h0 => hcond ⟨h0, hne⟩
    have : nl = l.map (fun x => x / l.sum) := by
      injection h with h; exact h.symm
    rw [this, sum_map_div, div_self hsum]

lemma normalize_side_of_sum_one {l nl : List ℚ} (h : normalize_side l = .ok nl)
    (hone : l.sum = 1) : nl = l := by
  unfold normalize_side at h
  split at h
  · exact absurd h (by simp)
  · have : nl = l.map (fun x => x / l.sum) := by injection h with h; exact h.symm
    rw [this, hone]
    simp

lemma normalize_side_nil {nl : List ℚ} (h : normalize_side [] = .ok nl) : nl = [] := by
  unfold normalize_side at h
  simp at h
  exact h

lemma normalize_side_replicate (n : ℕ) :
    normalize_side (List.replicate n (1 : ℚ)) = .ok (List.replicate n (1 / (n : ℚ))) := by
  unfold normalize_side
  cases n with
  | zero => simp
  | succ m =>
    have hsum : (List.replicate (m + 1) (1 : ℚ)).sum = ((m : ℚ) + 1) := by
      simp [List.sum_replicate, nsmul_eq_mul]
    have hne : ((m : ℚ) + 1) ≠ 0 := by positivity
    rw [if_neg]
    · rw [hsum, List.map_replicate]
      congr 2
      push_cast
      ring
    · rw [hsum]
      rintro ⟨h0, -⟩
      exact hne h0

lemma parse_and_validate_amounts_length {v : Option RawInts} {sp am : List ℚ}
    (h : parse_and_validate_amounts v sp = .ok am) : am.length = sp.length := by
  cases v with
  | none =>
    unfold parse_and_validate_amounts at h
    injection h with h
    simp [← h]
  | some raw =>
    simp only [parse_and_validate_amounts] at h
    cases hm : raw.parse with
    | none => rw [hm] at h; cases h
    | some l =>
      rw [hm] at h
      split at h
      · cases h
      · split at h
        · cases h
        · rename_i hlen
          injection h with h
          rw [← h, List.length_map]
          omega

lemma parse_and_validate_amounts_none (sp : List ℚ) :
    parse_and_validate_amounts none sp = .ok (List.replicate sp.length 1) := rfl

end MarketMakingControllerConfigBase

/-! Lemmas about the decimal rendering and parsing of level indices. -/

lemma digitVal_digit {d : ℕ} (hd : d < 10) :
    digitVal (Char.ofNat (48 + d)) = some d := by
  interval_cases d <;> decide

lemma parseNatAux_append (acc : ℕ) (xs ys : List Char) :
    parseNatAux acc (xs ++ ys) =
      (parseNatAux acc xs).bind (fun a => parseNatAux a ys) := by
  induction xs generalizing acc with
  | nil => rfl
  | cons c cs ih =>
    simp only [List.cons_append, parseNatAux]
    cases digitVal c with
    | none => rfl
    | some d => exact ih _

lemma mem_natReprAux_digit : ∀ (fuel n : ℕ) (c : Char), c ∈ natReprAux fuel n →
    ∃ d, d < 10 ∧ c = Char.ofNat (48 + d) := by
  intro fuel
  induction fuel with
  | zero => intro n c hc; simp [natReprAux] at hc
  | succ f ih =>
    intro n c hc
    rw [natReprAux] at hc
    split at hc
    · rename_i h10
      simp at hc
      exact ⟨n, h10, hc⟩
    · rename_i h10
      rw [List.mem_append] at hc
      rcases hc with hc | hc
      · exact ih _ _ hc
      · simp at hc
        exact ⟨n % 10, Nat.mod_lt _ (by omega), hc⟩

lemma natReprAux_ne_nil : ∀ (fuel n : ℕ), n < fuel → natReprAux fuel n ≠ [] := by
  intro fuel
  cases fuel with
  | zero => intro n hn; omega
  | succ f =>
    intro n _
    rw [natReprAux]
    split
    · simp
    · simp

lemma parseNatAux_natReprAux : ∀ (fuel n acc : ℕ), n < fuel →
    parseNatAux acc (natReprAux fuel n) =
      some (acc * 10 ^ (natReprAux fuel n).length + n) := by
  intro fuel
  induction fuel with
  | zero => intro n acc hn; omega
  | succ f ih =>
    intro n acc hn
    rw [natReprAux]
    split
    · rename_i h10
      simp [parseNatAux, digitVal_digit h10]
    · rename_i h10
      have hdiv : n / 10 < f := by
        have h1 : n / 10 < n := Nat.div_lt_self (by omega) (by omega)
        omega
      rw [parseNatAux_append, ih _ acc hdiv]
      have hmod : n % 10 < 10 := Nat.mod_lt _ (by omega)
      simp only [Option.some_bind, parseNatAux, digitVal_digit hmod, List.length_append,
        List.length_singleton]
      congr 1
      generalize (natReprAux f (n / 10)).length = L
      have hdm : 10 * (n / 10) + n % 10 = n := Nat.div_add_mod n 10
      calc (acc * 10 ^ L + n / 10) * 10 + n % 10
          = acc * (10 ^ L * 10) + (10 * (n / 10) + n % 10) := by ring
        _ = acc * 10 ^ (L + 1) + n := by rw [pow_succ, hdm]

lemma parseNatDigits_natRepr (n : ℕ) : parseNatDigits (natRepr n) = some n := by
  rw [parseNatDigits, if_neg, natRepr, parseNatAux_natReprAux (n + 1) n 0 (by omega)]
  · simp
  · exact natReprAux_ne_nil (n + 1) n (by omega)

lemma natRepr_all_digits {c : Char} (n : ℕ) (hc : c ∈ natRepr n) :
    ∃ d, d < 10 ∧ c = Char.ofNat (48 + d) := mem_natReprAux_digit (n + 1) n c hc

lemma underscore_not_mem_natRepr (n : ℕ) : '_' ∉ natRepr n := by
  intro hc
  obtain ⟨d, hd, he⟩ := natRepr_all_digits n hc
  interval_cases d <;> simp_all

lemma parseInt_natRepr (n : ℕ) : parseInt (natRepr n) = some (n : ℤ) := by
  have hne : natRepr n ≠ [] := natReprAux_ne_nil (n + 1) n (by omega)
  cases hc : natRepr n with
  | nil => exact absurd hc hne
  | cons c cs =>
    have hcmem : c ∈ natRepr n := by rw [hc]; exact List.mem_cons_self _ _
    obtain ⟨d, hd, he⟩ := natRepr_all_digits n hcmem
    have hcne : c ≠ '-' := by subst he; interval_cases d <;> decide
    simp only [parseInt, if_neg hcne]
    rw [← hc, parseNatDigits_natRepr]
    rfl

/-! Lemmas about `pySplit` and `pyStartsWith`. -/

lemma pySplit_of_not_mem {sep : Char} : ∀ {t : List Char}, sep ∉ t →
    pySplit sep t = [t] := by
  intro t
  induction t with
  | nil => intro _; rfl
  | cons c cs ih =>
    intro h
    have hc : c ≠ sep := fun he => h (he ▸ List.mem_cons_self _ _)
    have hcs : sep ∉ cs := fun hm => h (List.mem_cons_of_mem _ hm)
    rw [pySplit, if_neg hc, ih hcs]

lemma pySplit_append {sep : Char} : ∀ {w t : List Char}, sep ∉ w →
    pySplit sep (w ++ sep :: t) = w :: pySplit sep t := by
  intro w
  induction w with
  | nil => intro t _; simp [pySplit]
  | cons c cs ih =>
    intro t h
    have hc : c ≠ sep := fun he => h (he ▸ List.mem_cons_self _ _)
    have hcs : sep ∉ cs := fun hm => h (List.mem_cons_of_mem _ hm)
    rw [List.cons_append, pySplit, if_neg hc, ih hcs]

lemma pyStartsWith_append (p rest : List Char) :
    pyStartsWith p (p ++ rest) = true := by
  induction p with
  | nil => rfl
  | cons c cs ih => simp [pyStartsWith, ih]

namespace MarketMakingControllerBase

/-! Level-id serialization lemmas. -/

lemma pySplit_get_level_id (tt : TradeType) (level : ℕ) :
    pySplit '_' (get_level_id_from_side tt level) =
      [pyLower tt.pyName, natRepr level] := by
  have hw : '_' ∉ pyLower tt.pyName := by cases tt <;> decide
  rw [get_level_id_from_side, pySplit_append hw,
    pySplit_of_not_mem (underscore_not_mem_natRepr level)]

lemma length_insertByCloseDesc (e : ExecutorInfo) (l : List ExecutorInfo) :
    (insertByCloseDesc e l).length = l.length + 1 := by
  induction l with
  | nil => rfl
  | cons x xs ih =>
    rw [insertByCloseDesc]
    split
    · simp
    · simp [ih]

lemma length_sortByCloseTimestampDesc (l : List ExecutorInfo) :
    (sortByCloseTimestampDesc l).length = l.length := by
  induction l with
  | nil => rfl
  | cons x xs ih =>
    rw [sortByCloseTimestampDesc, length_insertByCloseDesc, ih]
    rfl

/-- Every action produced by the create loop is a `CreateExecutorAction` carrying
one of the requested level ids. -/
lemma mem_buildCreateActions {self : MarketMakingControllerBase} :
    ∀ {lids : List (List Char)} {acts : List ExecutorAction},
      buildCreateActions self lids = .ok acts →
      ∀ a ∈ acts, a.isCreate = true ∧ ∃ lid ∈ lids, a.levelId = some lid := by
  intro lids
  induction lids with
  | nil =>
    intro acts h a ha
    rw [buildCreateActions] at h
    injection h with h
    rw [← h] at ha
    cases ha
  | cons lid rest ih =>
    intro acts h a ha
    rw [buildCreateActions] at h
    revert h
    cases hpa : self.get_price_and_amount lid with
    | error e => intro h; cases h
    | ok pa =>
      cases hrest : buildCreateActions self rest with
      | error e => intro h; cases h
      | ok acts2 =>
        intro h
        injection h with h
        rw [← h] at ha
        rcases List.mem_cons.mp ha with ha1 | ha2
        · subst ha1
          exact ⟨rfl, lid, List.mem_cons_self _ _, rfl⟩
        · obtain ⟨hc, lid2, hmem, hlev⟩ := ih hrest a ha2
          exact ⟨hc, lid2, List.mem_cons_of_mem _ hmem, hlev⟩

end MarketMakingControllerBase

lemma pyIndex_pair_one {α : Type} (a b : α) : pyIndex [a, b] 1 = .ok b := by
  simp [pyIndex]

/-- C8: for every snapshot, the buffer pass counts the Terminated executors (the
close-timestamp-descending sort does not change that count), and exactly when the
count exceeds `EXECUTORS_BUFFER = 5` it stops every executor of the full unsorted
snapshot from index 5 on, regardless of status; otherwise it emits nothing. -/
theorem store_actions_proposal_buffer_slice (st : MarketMakingControllerBase) :
    st.store_actions_proposal =
      (if (st.executors_info.filter
            (fun x => decide (x.status = SmartComponentStatus.TERMINATED))).length > 5
       then (st.executors_info.drop 5).map (fun executor => ExecutorAction.stop executor.id)
       else []) ∧
    MarketMakingControllerBase.EXECUTORS_BUFFER = 5 := by
  constructor
  · rw [MarketMakingControllerBase.store_actions_proposal,
      MarketMakingControllerBase.filter_executors,
      MarketMakingControllerBase.length_sortByCloseTimestampDesc]
    rfl
  · rfl

/-- C10: level-id serialization round-trips; for each side and every index,
parsing `f"{side}_{index}"` with `get_trade_type_from_level_id` and
`get_level_from_level_id` recovers the side and the index. -/
theorem level_id_round_trip (tt : TradeType) (level : ℕ) :
    MarketMakingControllerBase.get_trade_type_from_level_id
        (MarketMakingControllerBase.get_level_id_from_side tt level) = tt ∧
    MarketMakingControllerBase.get_level_from_level_id
        (MarketMakingControllerBase.get_level_id_from_side tt level) = .ok (level : ℤ) := by
  constructor
  · cases tt <;> rfl
  · rw [MarketMakingControllerBase.get_level_from_level_id,
      MarketMakingControllerBase.pySplit_get_level_id, pyIndex_pair_one]
    simp [parseInt_natRepr]

/-- C7: whenever `determine_executor_actions` returns a list, that list is the
concatenation, in this order, of the create actions, the refresh stops, the
early stops (none by default) and the buffer stops; the create pass emits only
`CreateExecutorAction`s and the three stop passes only `StopExecutorAction`s. -/
theorem determine_executor_actions_order (st : MarketMakingControllerBase)
    (cs : List ExecutorAction) (h : st.create_actions_proposal = .ok cs) :
    st.determine_executor_actions =
      .ok (cs ++ st.executors_to_refresh ++ st.executors_to_early_stop ++
        st.store_actions_proposal) ∧
    (∀ a ∈ cs, a.isCreate = true) ∧
    (∀ a ∈ st.executors_to_refresh, a.isStop = true) ∧
    (∀ a ∈ st.executors_to_early_stop, a.isStop = true) ∧
    (∀ a ∈ st.store_actions_proposal, a.isStop = true) := by
  refine ⟨?_, ?_, ?_, ?_, ?_⟩
  · rw [MarketMakingControllerBase.determine_executor_actions, h,
      MarketMakingControllerBase.stop_actions_proposal]
    simp [List.append_assoc]
  · intro a ha
    rw [MarketMakingControllerBase.create_actions_proposal] at h
    exact (MarketMakingControllerBase.mem_buildCreateActions h a ha).1
  · intro a ha
    rw [MarketMakingControllerBase.executors_to_refresh] at ha
    obtain ⟨e, -, he⟩ := List.mem_map.mp ha
    rw [← he]
    rfl
  · intro a ha
    cases ha
  · intro a ha
    rw [MarketMakingControllerBase.store_actions_proposal] at ha
    split at ha
    · obtain ⟨e, -, he⟩ := List.mem_map.mp ha
      rw [← he]
      rfl
    · cases ha

/-- C9: a level whose id is bound (through `custom_info["level_id"]`) to an
executor that is active in the snapshot never appears among the
`CreateExecutorAction`s proposed in the same cycle, so re-running the (pure)
cycle on the same snapshot cannot create a duplicate executor for an
already-active level. -/
theorem active_level_not_in_create_actions (st : MarketMakingControllerBase)
    (e : ExecutorInfo) (he : e ∈ st.executors_info) (hact : e.is_active = true)
    (cs : List ExecutorAction) (h : st.create_actions_proposal = .ok cs) :
    ∀ a ∈ cs, a.levelId ≠ some e.custom_level_id := by
  intro a ha
  rw [MarketMakingControllerBase.create_actions_proposal] at h
  obtain ⟨-, lid, hlid, hlev⟩ := MarketMakingControllerBase.mem_buildCreateActions h a ha
  rw [MarketMakingControllerBase.filter_not_active_levels,
    MarketMakingControllerBase.get_not_active_levels_ids] at hlid
  have hnotin : lid ∉
      ((MarketMakingControllerBase.filter_executors st.executors_info
          (fun executor => decide (executor.trade_type = .BUY) && executor.is_active) ++
        MarketMakingControllerBase.filter_executors st.executors_info
          (fun executor => decide (executor.trade_type = .SELL) && executor.is_active)).map
        (fun e => e.custom_level_id)) := by
    rcases List.mem_append.mp hlid with hbuy | hsell
    · exact of_decide_eq_true ((List.mem_filter.mp hbuy).2)
    · exact of_decide_eq_true ((List.mem_filter.mp hsell).2)
  have hmem : e.custom_level_id ∈
      ((MarketMakingControllerBase.filter_executors st.executors_info
          (fun executor => decide (executor.trade_type = .BUY) && executor.is_active) ++
        MarketMakingControllerBase.filter_executors st.executors_info
          (fun executor => decide (executor.trade_type = .SELL) && executor.is_active)).map
        (fun e => e.custom_level_id)) := by
    rw [List.map_append, List.mem_append]
    cases htt : e.trade_type with
    | BUY =>
      left
      exact List.mem_map.mpr ⟨e, List.mem_filter.mpr ⟨he, by simp [htt, hact]⟩, rfl⟩
    | SELL =>
      right
      exact List.mem_map.mpr ⟨e, List.mem_filter.mpr ⟨he, by simp [htt, hact]⟩, rfl⟩
  rw [hlev]
  intro hcontra
  injection hcontra with hcontra
  rw [hcontra] at hnotin
  exact hnotin hmem

namespace MarketMakingControllerConfigBase

lemma update_parameters_normalize_ok {cfg2 cfg' : MarketMakingControllerConfigBase}
    (h : update_parameters_normalize cfg2 = (none, cfg')) :
    ∃ nb nsell, normalize_side cfg2.buy_amounts_pct = .ok nb ∧
      normalize_side cfg2.sell_amounts_pct = .ok nsell ∧
      cfg' = { cfg2 with buy_amounts_pct := nb, sell_amounts_pct := nsell } := by
  rw [update_parameters_normalize] at h
  cases hnb : normalize_side cfg2.buy_amounts_pct with
  | error e => rw [hnb] at h; injection h with h1 h2; cases h1
  | ok nb =>
    simp only [hnb] at h
    cases hns : normalize_side cfg2.sell_amounts_pct with
    | error e =>
      simp only [hns] at h
      injection h with h1 h2; cases h1
    | ok nsell =>
      simp only [hns] at h
      injection h with h1 h2
      exact ⟨nb, nsell, rfl, rfl, h2.symm⟩

lemma update_parameters_amounts_ok {cfg1 cfg' : MarketMakingControllerConfigBase}
    {tt : TradeType} {na : Option RawInts}
    (h : update_parameters_amounts cfg1 tt na = (none, cfg')) :
    ∃ am, (match na with
           | some raw => parse_and_validate_amounts_direct raw
           | none => Except.ok (List.replicate (cfg1.getSpreads tt).length 1)) = .ok am ∧
      update_parameters_normalize (cfg1.setAmounts tt am) = (none, cfg') := by
  rw [update_parameters_amounts.eq_def] at h
  cases hm : (match na with
              | some raw => parse_and_validate_amounts_direct raw
              | none => Except.ok (List.replicate (cfg1.getSpreads tt).length 1)) with
  | error e => rw [hm] at h; injection h with h1 h2; cases h1
  | ok am => rw [hm] at h; exact ⟨am, rfl, h⟩

lemma update_parameters_ok {cfg cfg' : MarketMakingControllerConfigBase}
    {tt : TradeType} {ns : RawFloats} {na : Option RawInts}
    (h : cfg.update_parameters tt ns na = (none, cfg')) :
    ∃ sp, parse_spreads ns = .ok sp ∧
      update_parameters_amounts (cfg.setSpreads tt sp) tt na = (none, cfg') := by
  rw [update_parameters] at h
  cases hps : parse_spreads ns with
  | error e => rw [hps] at h; injection h with h1 h2; cases h1
  | ok sp => rw [hps] at h; exact ⟨sp, rfl, h⟩

end MarketMakingControllerConfigBase

namespace MarketMakingControllerConfigBase

lemma normalize_side_eq_map {l nl : List ℚ} (h : normalize_side l = .ok nl) :
    nl = l.map (fun amt => amt / l.sum) := by
  rw [normalize_side] at h
  split at h
  · cases h
  · injection h with h
    exact h.symm

lemma normalize_amounts_ok {buy sell nb nsa : List ℚ}
    (h : normalize_amounts buy sell = .ok (nb, nsa)) :
    normalize_side buy = .ok nb ∧ normalize_side sell = .ok nsa := by
  rw [normalize_amounts] at h
  cases hb : normalize_side buy with
  | error e => rw [hb] at h; cases h
  | ok nb2 =>
    rw [hb] at h
    cases hs : normalize_side sell with
    | error e => rw [hs] at h; cases h
    | ok nsa2 =>
      rw [hs] at h
      injection h with h
      injection h with h1 h2
      rw [← h1, ← h2]
      exact ⟨rfl, rfl⟩

lemma build_ok {idv cn tp : List Char} {taq : ℚ} {rbs : RawFloats}
    {rba : Option RawInts} {rss : RawFloats} {rsa : Option RawInts}
    {ert : ℚ} {ct lev : ℤ} {pm : PositionMode} {ceb : ℤ}
    {cfg : MarketMakingControllerConfigBase}
    (h : build idv cn tp taq rbs rba rss rsa ert ct lev pm ceb = .ok cfg) :
    ∃ bs ba ss sa nb nsa,
      parse_spreads rbs = .ok bs ∧
      parse_and_validate_amounts rba bs = .ok ba ∧
      parse_spreads rss = .ok ss ∧
      parse_and_validate_amounts rsa ss = .ok sa ∧
      normalize_side ba = .ok nb ∧ normalize_side sa = .ok nsa ∧
      cfg.buy_spreads = bs ∧ cfg.buy_amounts_pct = nb ∧
      cfg.sell_spreads = ss ∧ cfg.sell_amounts_pct = nsa := by
  rw [build] at h
  cases h1 : parse_spreads rbs with
  | error e => simp only [h1] at h; cases h
  | ok bs =>
  simp only [h1] at h
  cases h2 : parse_and_validate_amounts rba bs with
  | error e => simp only [h2] at h; cases h
  | ok ba =>
  simp only [h2] at h
  cases h3 : parse_spreads rss with
  | error e => simp only [h3] at h; cases h
  | ok ss =>
  simp only [h3] at h
  cases h4 : parse_and_validate_amounts rsa ss with
  | error e => simp only [h4] at h; cases h
  | ok sa =>
  simp only [h4] at h
  split at h
  · cases h
  · cases h5 : normalize_amounts ba sa with
    | error e => simp only [h5] at h; cases h
    | ok p =>
      simp only [h5] at h
      cases p with
      | mk nb nsa =>
        obtain ⟨hb, hs⟩ := normalize_amounts_ok h5
        injection h with h
        exact ⟨bs, ba, ss, sa, nb, nsa, rfl, h2, rfl, h4, hb, hs,
          by rw [← h], by rw [← h], by rw [← h], by rw [← h]⟩

end MarketMakingControllerConfigBase

open MarketMakingControllerConfigBase in
/-- C5 (amended): `update_parameters` is atomic only against failures of
`parse_spreads` (raised before any assignment, leaving the config unchanged).
Every call with explicit `new_amounts_pct` raises — a `ValueError` when the
amounts string has a malformed token, otherwise the `AttributeError` from
evaluating `field.name` on the field-name *string* passed at source line 124 —
and it raises after the side's spreads were already assigned, leaving the new
spreads with the stale amounts; in particular no explicit-amounts update can
ever succeed (the length check at source line 94 is unreachable from
`update_parameters`). -/
theorem update_parameters_partial_mutation
    (cfg : MarketMakingControllerConfigBase) (tt : TradeType) (ns : RawFloats)
    (na : Option RawInts) :
    (∀ e, parse_spreads ns = .error e →
      cfg.update_parameters tt ns na = (some e, cfg)) ∧
    (∀ sp raw, parse_spreads ns = .ok sp → na = some raw →
      cfg.update_parameters tt ns na =
        (some (match raw.parse with
               | none => PyError.valueError
               | some _ => PyError.attributeError),
         cfg.setSpreads tt sp)) ∧
    (∀ raw, na = some raw → ∀ cfg2,
      cfg.update_parameters tt ns na ≠ (none, cfg2)) := by
  have hspreads : ∀ e, parse_spreads ns = .error e →
      cfg.update_parameters tt ns na = (some e, cfg) := by
    intro e hps
    rw [update_parameters, hps]
  have hamounts : ∀ sp raw, parse_spreads ns = .ok sp → na = some raw →
      cfg.update_parameters tt ns na =
        (some (match raw.parse with
               | none => PyError.valueError
               | some _ => PyError.attributeError),
         cfg.setSpreads tt sp) := by
    intro sp raw hps hna
    subst hna
    rw [update_parameters]
    simp only [hps]
    rw [update_parameters_amounts.eq_def]
    cases hp : raw.parse with
    | none => simp only [parse_and_validate_amounts_direct, hp]
    | some l => simp only [parse_and_validate_amounts_direct, hp]
  refine ⟨hspreads, hamounts, ?_⟩
  intro raw hna cfg2 hcontra
  cases hps : parse_spreads ns with
  | error e =>
    rw [hspreads e hps] at hcontra
    injection hcontra with h1 h2
    cases h1
  | ok sp =>
    rw [hamounts sp raw hps hna] at hcontra
    injection hcontra with h1 h2
    cases hp : raw.parse <;> rw [hp] at h1 <;> cases h1

open MarketMakingControllerConfigBase in
/-- C6: a successful `update_parameters` on one side leaves the other side's
spreads and (already normalized, per the data-model invariant) amount fractions
and every scalar field named by the spec unchanged. -/
theorem update_parameters_frame
    (cfg : MarketMakingControllerConfigBase) (ns : RawFloats) (na : Option RawInts)
    (cfg' : MarketMakingControllerConfigBase) :
    (cfg.update_parameters .BUY ns na = (none, cfg') →
      (cfg.sell_amounts_pct.sum = 1 ∨ cfg.sell_amounts_pct = []) →
      cfg'.sell_spreads = cfg.sell_spreads ∧
      cfg'.sell_amounts_pct = cfg.sell_amounts_pct ∧
      cfg'.total_amount_quote = cfg.total_amount_quote ∧
      cfg'.executor_refresh_time = cfg.executor_refresh_time ∧
      cfg'.cooldown_time = cfg.cooldown_time ∧
      cfg'.leverage = cfg.leverage ∧
      cfg'.position_mode = cfg.position_mode ∧
      cfg'.closed_executors_buffer = cfg.closed_executors_buffer) ∧
    (cfg.update_parameters .SELL ns na = (none, cfg') →
      (cfg.buy_amounts_pct.sum = 1 ∨ cfg.buy_amounts_pct = []) →
      cfg'.buy_spreads = cfg.buy_spreads ∧
      cfg'.buy_amounts_pct = cfg.buy_amounts_pct ∧
      cfg'.total_amount_quote = cfg.total_amount_quote ∧
      cfg'.executor_refresh_time = cfg.executor_refresh_time ∧
      cfg'.cooldown_time = cfg.cooldown_time ∧
      cfg'.leverage = cfg.leverage ∧
      cfg'.position_mode = cfg.position_mode ∧
      cfg'.closed_executors_buffer = cfg.closed_executors_buffer) := by
  constructor
  · intro h hinv
    obtain ⟨sp, hps, h1⟩ := update_parameters_ok h
    obtain ⟨am, ham, h2⟩ := update_parameters_amounts_ok h1
    obtain ⟨nb, nsell, hnb, hns, hcfg⟩ := update_parameters_normalize_ok h2
    have hns2 : normalize_side cfg.sell_amounts_pct = .ok nsell := hns
    have hsell : nsell = cfg.sell_amounts_pct := by
      rcases hinv with hsum | hnil
      · exact normalize_side_of_sum_one hns2 hsum
      · rw [hnil] at hns2
        rw [normalize_side_nil hns2, hnil]
    subst hcfg
    exact ⟨rfl, hsell, rfl, rfl, rfl, rfl, rfl, rfl⟩
  · intro h hinv
    obtain ⟨sp, hps, h1⟩ := update_parameters_ok h
    obtain ⟨am, ham, h2⟩ := update_parameters_amounts_ok h1
    obtain ⟨nb, nsell, hnb, hns, hcfg⟩ := update_parameters_normalize_ok h2
    have hnb2 : normalize_side cfg.buy_amounts_pct = .ok nb := hnb
    have hbuy : nb = cfg.buy_amounts_pct := by
      rcases hinv with hsum | hnil
      · exact normalize_side_of_sum_one hnb2 hsum
      · rw [hnil] at hnb2
        rw [normalize_side_nil hnb2, hnil]
    subst hcfg
    exact ⟨rfl, hbuy, rfl, rfl, rfl, rfl, rfl, rfl⟩

open MarketMakingControllerConfigBase in
/-- C3 (amended): after a successful build, each side with at least one level has
amount fractions summing to one, and a side whose raw amounts are omitted gets
`1/N` per level (vacuously `[]` for an empty side); after a successful
`update_parameters`, each non-empty side again sums to one and an omitted
`new_amounts_pct` gives the updated side `1/N` per level. The empty-side
exception is forced by the counterexample `build_empty_side_sum_zero`. -/
theorem amounts_normalized_after_build_and_update :
    (∀ (idv cn tp : List Char) (taq : ℚ) (rbs : RawFloats) (rba : Option RawInts)
       (rss : RawFloats) (rsa : Option RawInts) (ert : ℚ) (ct lev : ℤ)
       (pm : PositionMode) (ceb : ℤ) (cfg : MarketMakingControllerConfigBase),
      build idv cn tp taq rbs rba rss rsa ert ct lev pm ceb = .ok cfg →
      (cfg.buy_spreads ≠ [] → cfg.buy_amounts_pct.sum = 1) ∧
      (cfg.sell_spreads ≠ [] → cfg.sell_amounts_pct.sum = 1) ∧
      (rba = none → cfg.buy_amounts_pct =
        List.replicate cfg.buy_spreads.length (1 / (cfg.buy_spreads.length : ℚ))) ∧
      (rsa = none → cfg.sell_amounts_pct =
        List.replicate cfg.sell_spreads.length (1 / (cfg.sell_spreads.length : ℚ)))) ∧
    (∀ (cfg : MarketMakingControllerConfigBase) (tt : TradeType) (ns : RawFloats)
       (na : Option RawInts) (cfg' : MarketMakingControllerConfigBase),
      cfg.update_parameters tt ns na = (none, cfg') →
      (cfg'.buy_amounts_pct ≠ [] → cfg'.buy_amounts_pct.sum = 1) ∧
      (cfg'.sell_amounts_pct ≠ [] → cfg'.sell_amounts_pct.sum = 1) ∧
      (na = none → cfg'.getAmounts tt =
        List.replicate (cfg'.getSpreads tt).length (1 / ((cfg'.getSpreads tt).length : ℚ)))) := by
  constructor
  · intro idv cn tp taq rbs rba rss rsa ert ct lev pm ceb cfg h
    obtain ⟨bs, ba, ss, sa, nb, nsa, h1, h2, h3, h4, hb, hs, e1, e2, e3, e4⟩ := build_ok h
    refine ⟨?_, ?_, ?_, ?_⟩
    · intro hne
      rw [e2]
      have hlen := parse_and_validate_amounts_length h2
      have hba : ba ≠ [] := by
        intro hnil
        rw [hnil] at hlen
        rw [e1] at hne
        exact hne (List.length_eq_zero.mp hlen.symm)
      exact normalize_side_sum hb hba
    · intro hne
      rw [e4]
      have hlen := parse_and_validate_amounts_length h4
      have hsa : sa ≠ [] := by
        intro hnil
        rw [hnil] at hlen
        rw [e3] at hne
        exact hne (List.length_eq_zero.mp hlen.symm)
      exact normalize_side_sum hs hsa
    · intro hrba
      subst hrba
      rw [parse_and_validate_amounts_none] at h2
      injection h2 with h2
      rw [← h2] at hb
      rw [normalize_side_replicate] at hb
      injection hb with hb
      rw [e2, ← hb, e1]
    · intro hrsa
      subst hrsa
      rw [parse_and_validate_amounts_none] at h4
      injection h4 with h4
      rw [← h4] at hs
      rw [normalize_side_replicate] at hs
      injection hs with hs
      rw [e4, ← hs, e3]
  · intro cfg tt ns na cfg' h
    obtain ⟨sp, hps, h1⟩ := update_parameters_ok h
    obtain ⟨am, ham, h2⟩ := update_parameters_amounts_ok h1
    obtain ⟨nb, nsell, hnb, hns, hcfg⟩ := update_parameters_normalize_ok h2
    subst hcfg
    refine ⟨?_, ?_, ?_⟩
    · intro hne
      show nb.sum = 1
      have hmap := normalize_side_eq_map hnb
      have : ((cfg.setSpreads tt sp).setAmounts tt am).buy_amounts_pct ≠ [] := by
        intro hnil
        rw [hnil] at hmap
        exact hne (by show nb = []; simp [hmap])
      exact normalize_side_sum hnb this
    · intro hne
      show nsell.sum = 1
      have hmap := normalize_side_eq_map hns
      have : ((cfg.setSpreads tt sp).setAmounts tt am).sell_amounts_pct ≠ [] := by
        intro hnil
        rw [hnil] at hmap
        exact hne (by show nsell = []; simp [hmap])
      exact normalize_side_sum hns this
    · intro hna
      subst hna
      injection ham with ham
      cases tt with
      | BUY =>
        show nb = List.replicate sp.length (1 / (sp.length : ℚ))
        have ham2 : ((cfg.setSpreads .BUY sp).setAmounts .BUY am).buy_amounts_pct =
            List.replicate sp.length 1 := by
          show am = List.replicate sp.length 1
          rw [← ham]
          rfl
        rw [ham2] at hnb
        rw [normalize_side_replicate] at hnb
        injection hnb with hnb
        exact hnb.symm
      | SELL =>
        show nsell = List.replicate sp.length (1 / (sp.length : ℚ))
        have ham2 : ((cfg.setSpreads .SELL sp).setAmounts .SELL am).sell_amounts_pct =
            List.replicate sp.length 1 := by
          show am = List.replicate sp.length 1
          rw [← ham]
          rfl
        rw [ham2] at hns
        rw [normalize_side_replicate] at hns
        injection hns with hns
        exact hns.symm

/-! Closed-form evaluations of the embedded code on the concrete fixtures. -/

lemma evalSplit_buy0 : pySplit '_' (strL "buy_0") = [strL "buy", strL "0"] := by decide
lemma evalSplit_buy1 : pySplit '_' (strL "buy_1") = [strL "buy", strL "1"] := by decide
lemma evalSplit_sell0 : pySplit '_' (strL "sell_0") = [strL "sell", strL "0"] := by decide
lemma evalSplit_sell1 : pySplit '_' (strL "sell_1") = [strL "sell", strL "1"] := by decide
lemma evalMember_buy : TradeType.fromMemberName (pyUpper (strL "buy")) = some TradeType.BUY := by decide
lemma evalMember_sell : TradeType.fromMemberName (pyUpper (strL "sell")) = some TradeType.SELL := by decide
lemma evalParse_0 : parseInt (strL "0") = some 0 := by decide
lemma evalParse_1 : parseInt (strL "1") = some 1 := by decide

lemma gpa_ctrlOne_buy0 :
    ctrlOne.get_price_and_amount (strL "buy_0") = .ok (101, 100/101) := by
  rw [MarketMakingControllerBase.get_price_and_amount, evalSplit_buy0]
  simp only [evalMember_buy, evalParse_0, pyStrEqTradeType, ctrlOne, cfgOne,
    MarketMakingControllerConfigBase.get_spreads_and_amounts_in_quote,
    MarketMakingControllerConfigBase.getSpreads, MarketMakingControllerConfigBase.getAmounts,
    pyIndex, List.map, List.get?, List.length, Int.toNat]
  norm_num

lemma gpa_ctrlOne_sell0 :
    ctrlOne.get_price_and_amount (strL "sell_0") = .ok (101, 100/101) := by
  rw [MarketMakingControllerBase.get_price_and_amount, evalSplit_sell0]
  simp only [evalMember_sell, evalParse_0, pyStrEqTradeType, ctrlOne, cfgOne,
    MarketMakingControllerConfigBase.get_spreads_and_amounts_in_quote,
    MarketMakingControllerConfigBase.getSpreads, MarketMakingControllerConfigBase.getAmounts,
    pyIndex, List.map, List.get?, List.length, Int.toNat]
  norm_num

lemma gpa_scenario_buy0 :
    ctrlScenario.get_price_and_amount (strL "buy_0") = .ok (101, 50/101) := by
  rw [MarketMakingControllerBase.get_price_and_amount, evalSplit_buy0]
  simp only [evalMember_buy, evalParse_0, pyStrEqTradeType, ctrlScenario, cfgScenario,
    MarketMakingControllerConfigBase.get_spreads_and_amounts_in_quote,
    MarketMakingControllerConfigBase.getSpreads, MarketMakingControllerConfigBase.getAmounts,
    pyIndex, List.map, List.get?, List.length, Int.toNat]
  norm_num

lemma gpa_scenario_buy1 :
    ctrlScenario.get_price_and_amount (strL "buy_1") = .ok (102, 50/102) := by
  rw [MarketMakingControllerBase.get_price_and_amount, evalSplit_buy1]
  simp only [evalMember_buy, evalParse_1, pyStrEqTradeType, ctrlScenario, cfgScenario,
    MarketMakingControllerConfigBase.get_spreads_and_amounts_in_quote,
    MarketMakingControllerConfigBase.getSpreads, MarketMakingControllerConfigBase.getAmounts,
    pyIndex, List.map, List.get?, List.length, Int.toNat]
  norm_num

lemma gpa_scenario_sell0 :
    ctrlScenario.get_price_and_amount (strL "sell_0") = .ok (101, 50/101) := by
  rw [MarketMakingControllerBase.get_price_and_amount, evalSplit_sell0]
  simp only [evalMember_sell, evalParse_0, pyStrEqTradeType, ctrlScenario, cfgScenario,
    MarketMakingControllerConfigBase.get_spreads_and_amounts_in_quote,
    MarketMakingControllerConfigBase.getSpreads, MarketMakingControllerConfigBase.getAmounts,
    pyIndex, List.map, List.get?, List.length, Int.toNat]
  norm_num

lemma gpa_scenario_sell1 :
    ctrlScenario.get_price_and_amount (strL "sell_1") = .ok (102, 50/102) := by
  rw [MarketMakingControllerBase.get_price_and_amount, evalSplit_sell1]
  simp only [evalMember_sell, evalParse_1, pyStrEqTradeType, ctrlScenario, cfgScenario,
    MarketMakingControllerConfigBase.get_spreads_and_amounts_in_quote,
    MarketMakingControllerConfigBase.getSpreads, MarketMakingControllerConfigBase.getAmounts,
    pyIndex, List.map, List.get?, List.length, Int.toNat]
  norm_num

lemma create_actions_scenario :
    ctrlScenario.create_actions_proposal = .ok
      [.create (strL "c1") ⟨strL "buy_0", 101, 50/101⟩,
       .create (strL "c1") ⟨strL "buy_1", 102, 50/102⟩,
       .create (strL "c1") ⟨strL "sell_0", 101, 50/101⟩,
       .create (strL "c1") ⟨strL "sell_1", 102, 50/102⟩] := by
  show ctrlScenario.buildCreateActions
      [strL "buy_0", strL "buy_1", strL "sell_0", strL "sell_1"] = _
  simp only [MarketMakingControllerBase.buildCreateActions, gpa_scenario_buy0,
    gpa_scenario_buy1, gpa_scenario_sell0, gpa_scenario_sell1,
    MarketMakingControllerBase.get_executor_config]
  rfl

lemma determine_scenario :
    ctrlScenario.determine_executor_actions = .ok
      [.create (strL "c1") ⟨strL "buy_0", 101, 50/101⟩,
       .create (strL "c1") ⟨strL "buy_1", 102, 50/102⟩,
       .create (strL "c1") ⟨strL "sell_0", 101, 50/101⟩,
       .create (strL "c1") ⟨strL "sell_1", 102, 50/102⟩] := by
  rw [MarketMakingControllerBase.determine_executor_actions, create_actions_scenario]
  rfl

/-- C1 (code defect): on a buy level with positive spread `0.01`, positive
reference price `100` and spread multiplier `1`, `get_price_and_amount` returns
the price `101`, which is strictly above the reference price, not below it: the
source compares the split *string* with the enum member `TradeType.BUY`
(always false in Python), so the side multiplier is `+1` on both sides. -/
theorem get_price_and_amount_buy_above_reference :
    ctrlOne.config.buy_spreads = [1/100] ∧
    ctrlOne.reference_price = 100 ∧
    ctrlOne.spread_multiplier = 1 ∧
    ctrlOne.get_price_and_amount (strL "buy_0") = .ok (101, 100/101) ∧
    ¬((101 : ℚ) < 100) := by
  refine ⟨rfl, rfl, rfl, gpa_ctrlOne_buy0, by norm_num⟩

/-- C2 (counterexample): on the spec §8 scenario the engine does not return the
claimed list with buy prices below the reference (`buy_0` at price 99 with
amount 25/99, etc.). -/
theorem determine_scenario_ne_claimed :
    ctrlScenario.determine_executor_actions ≠ .ok
      [.create (strL "c1") ⟨strL "buy_0", 99, 25/99⟩,
       .create (strL "c1") ⟨strL "buy_1", 98, 25/98⟩,
       .create (strL "c1") ⟨strL "sell_0", 101, 25/101⟩,
       .create (strL "c1") ⟨strL "sell_1", 102, 25/102⟩] := by
  rw [determine_scenario]
  intro hcontra
  simp only [Except.ok.injEq, List.cons.injEq, ExecutorAction.create.injEq,
    ExecutorConfigModel.mk.injEq] at hcontra
  norm_num at hcontra

/-- C2 (amended): on the scenario config (`buy_spreads=[0.01,0.02]`,
`sell_spreads=[0.01,0.02]`, equal amounts, `total_quote_amount=100`,
`reference_price=100`, `spread_multiplier=1`, empty snapshot) the engine returns
exactly four `CreateExecutorAction`s, in the level order buy_0, buy_1, sell_0,
sell_1, and no stop or store actions; each side's two levels each receive 50
quote, and the prices are `buy_0 = 101`, `buy_1 = 102`, `sell_0 = 101`,
`sell_1 = 102` (both sides sit above the reference because of the side-multiplier
defect recorded in C1), with base amounts `50/price`. -/
theorem determine_scenario_eval :
    ctrlScenario.determine_executor_actions = .ok
      [.create (strL "c1") ⟨strL "buy_0", 101, 50/101⟩,
       .create (strL "c1") ⟨strL "buy_1", 102, 50/102⟩,
       .create (strL "c1") ⟨strL "sell_0", 101, 50/101⟩,
       .create (strL "c1") ⟨strL "sell_1", 102, 50/102⟩] :=
  determine_scenario

/-- C4 (code defect): a side whose raw amount weights sum to zero makes
`normalize_amounts` divide by zero: building the config raises an unwrapped
`ZeroDivisionError`, not the `ValidationError` the spec mandates. -/
theorem build_zero_sum_zero_division :
    MarketMakingControllerConfigBase.build (strL "c1") (strL "binance_perpetual")
      (strL "WLD-USDT") 100 (.lst [1/100, 2/100]) (some (.lst [0, 0]))
      (.lst [1/100]) none 300 15 20 .HEDGE 10 = .error .zeroDivisionError ∧
    PyError.zeroDivisionError ≠ PyError.validationError := by
  constructor
  · rw [MarketMakingControllerConfigBase.build]
    norm_num [MarketMakingControllerConfigBase.parse_spreads,
      MarketMakingControllerConfigBase.parse_and_validate_amounts, RawInts.parse,
      MarketMakingControllerConfigBase.normalize_amounts,
      MarketMakingControllerConfigBase.normalize_side]
    rfl
  · decide

/-- C3 (counterexample): a config built with an empty buy ladder (`buy_spreads =
[]`) is accepted, and its buy amount fractions sum to `0`, not `1`. -/
theorem build_empty_side_sum_zero :
    (MarketMakingControllerConfigBase.build (strL "c1") (strL "binance_perpetual")
      (strL "WLD-USDT") 100 (.lst []) none (.lst [1/100]) none 300 15 20 .HEDGE 10).map
      (fun c => c.buy_amounts_pct.sum) = .ok 0 ∧ (0 : ℚ) ≠ 1 := by
  constructor
  · rw [MarketMakingControllerConfigBase.build]
    norm_num [MarketMakingControllerConfigBase.parse_spreads,
      MarketMakingControllerConfigBase.parse_and_validate_amounts,
      MarketMakingControllerConfigBase.normalize_amounts,
      MarketMakingControllerConfigBase.normalize_side]
    rfl
  · norm_num

lemma update_cfgOne_mismatch_eval :
    cfgOne.update_parameters .BUY (.lst [5/100]) (some (.lst [1, 2])) =
      (some .attributeError, cfgOne.setSpreads .BUY [5/100]) := rfl

/-- C5 (counterexample): updating the buy side of `cfgOne` with
`new_spreads=[0.05]` and `new_amounts_pct=[1,2]` raises the `AttributeError`
from `field.name` on the field-name string passed at source line 124 (the
length check is never reached), yet the config is not left as it was: the buy
spreads have already been replaced by `[0.05]` while the buy amounts are
stale. -/
theorem update_parameters_not_atomic :
    (cfgOne.update_parameters .BUY (.lst [5/100]) (some (.lst [1, 2]))).1 =
      some .attributeError ∧
    (cfgOne.update_parameters .BUY (.lst [5/100]) (some (.lst [1, 2]))).2.buy_spreads =
      [5/100] ∧
    (cfgOne.update_parameters .BUY (.lst [5/100]) (some (.lst [1, 2]))).2.buy_amounts_pct =
      cfgOne.buy_amounts_pct ∧
    (cfgOne.update_parameters .BUY (.lst [5/100]) (some (.lst [1, 2]))).2 ≠ cfgOne := by
  refine ⟨rfl, rfl, rfl, ?_⟩
  intro hcontra
  have h5 : ([(5 : ℚ)/100]) = ([1/100] : List ℚ) :=
    congrArg MarketMakingControllerConfigBase.buy_spreads hcontra
  norm_num at h5

/-- Witness for C5's amended theorem at a concrete input: the spreads parse
succeeds, the explicit-amounts call raises `AttributeError`, and the call ends
in the partially mutated state (and never in a success state). -/
theorem update_parameters_partial_mutation_witness :
    MarketMakingControllerConfigBase.parse_spreads (.lst [5/100]) = .ok [5/100] ∧
    cfgOne.update_parameters .BUY (.lst [5/100]) (some (.lst [1, 2])) =
      (some .attributeError, cfgOne.setSpreads .BUY [5/100]) ∧
    cfgOne.update_parameters .BUY (.lst [5/100]) (some (.lst [1, 2])) ≠
      (none, cfgOne) :=
  ⟨rfl,
   (update_parameters_partial_mutation cfgOne .BUY (.lst [5/100])
     (some (.lst [1, 2]))).2.1 [5/100] (.lst [1, 2]) rfl rfl,
   (update_parameters_partial_mutation cfgOne .BUY (.lst [5/100])
     (some (.lst [1, 2]))).2.2 (.lst [1, 2]) rfl cfgOne⟩

lemma update_cfgOne_eval :
    cfgOne.update_parameters .BUY (.lst [2/100]) none =
      (none, { cfgOne with
                 buy_spreads := [2/100]
                 buy_amounts_pct := [1]
                 sell_amounts_pct := [1] }) := by
  rw [MarketMakingControllerConfigBase.update_parameters]
  show MarketMakingControllerConfigBase.update_parameters_amounts
      (cfgOne.setSpreads .BUY [2/100]) .BUY none = _
  rw [MarketMakingControllerConfigBase.update_parameters_amounts.eq_def]
  show MarketMakingControllerConfigBase.update_parameters_normalize
      ((cfgOne.setSpreads .BUY [2/100]).setAmounts .BUY [1]) = _
  rw [MarketMakingControllerConfigBase.update_parameters_normalize]
  norm_num [MarketMakingControllerConfigBase.normalize_side, cfgOne,
    MarketMakingControllerConfigBase.setSpreads, MarketMakingControllerConfigBase.setAmounts]

/-- Witness for C6 at a concrete successful update of the buy side: the sell
side and the scalar fields are unchanged. -/
theorem update_parameters_frame_witness :
    ({ cfgOne with
         buy_spreads := [2/100]
         buy_amounts_pct := [1]
         sell_amounts_pct := [1] } : MarketMakingControllerConfigBase).sell_spreads =
      cfgOne.sell_spreads ∧
    ({ cfgOne with
         buy_spreads := [2/100]
         buy_amounts_pct := [1]
         sell_amounts_pct := [1] } : MarketMakingControllerConfigBase).sell_amounts_pct =
      cfgOne.sell_amounts_pct ∧
    ({ cfgOne with
         buy_spreads := [2/100]
         buy_amounts_pct := [1]
         sell_amounts_pct := [1] } : MarketMakingControllerConfigBase).total_amount_quote =
      cfgOne.total_amount_quote ∧
    ({ cfgOne with
         buy_spreads := [2/100]
         buy_amounts_pct := [1]
         sell_amounts_pct := [1] } : MarketMakingControllerConfigBase).executor_refresh_time =
      cfgOne.executor_refresh_time ∧
    ({ cfgOne with
         buy_spreads := [2/100]
         buy_amounts_pct := [1]
         sell_amounts_pct := [1] } : MarketMakingControllerConfigBase).cooldown_time =
      cfgOne.cooldown_time ∧
    ({ cfgOne with
         buy_spreads := [2/100]
         buy_amounts_pct := [1]
         sell_amounts_pct := [1] } : MarketMakingControllerConfigBase).leverage =
      cfgOne.leverage ∧
    ({ cfgOne with
         buy_spreads := [2/100]
         buy_amounts_pct := [1]
         sell_amounts_pct := [1] } : MarketMakingControllerConfigBase).position_mode =
      cfgOne.position_mode ∧
    ({ cfgOne with
         buy_spreads := [2/100]
         buy_amounts_pct := [1]
         sell_amounts_pct := [1] } : MarketMakingControllerConfigBase).closed_executors_buffer =
      cfgOne.closed_executors_buffer :=
  (update_parameters_frame cfgOne (.lst [2/100]) none _).1 update_cfgOne_eval
    (Or.inl (by norm_num [cfgOne]))

lemma build_scenario_eval :
    MarketMakingControllerConfigBase.build (strL "c1") (strL "binance_perpetual")
      (strL "WLD-USDT") 100 (.lst [1/100, 2/100]) none (.lst [1/100, 2/100]) none
      300 15 20 .HEDGE 10 = .ok cfgScenario := by
  rw [MarketMakingControllerConfigBase.build]
  norm_num [MarketMakingControllerConfigBase.parse_spreads,
    MarketMakingControllerConfigBase.parse_and_validate_amounts,
    MarketMakingControllerConfigBase.normalize_amounts,
    MarketMakingControllerConfigBase.normalize_side, cfgScenario, List.replicate]
  rfl

/-- Witness for C3's amended theorem on the scenario build: the buy fractions sum
to one and equal `1/N` per level. -/
theorem amounts_normalized_witness :
    cfgScenario.buy_amounts_pct.sum = 1 ∧
    cfgScenario.buy_amounts_pct =
      List.replicate cfgScenario.buy_spreads.length
        (1 / (cfgScenario.buy_spreads.length : ℚ)) := by
  have h := amounts_normalized_after_build_and_update.1 (strL "c1")
    (strL "binance_perpetual") (strL "WLD-USDT") 100 (.lst [1/100, 2/100]) none
    (.lst [1/100, 2/100]) none 300 15 20 .HEDGE 10 cfgScenario build_scenario_eval
  exact ⟨h.1 (by simp [cfgScenario]), h.2.2.1 rfl⟩

/-- Witness for C7 on the scenario snapshot: the returned list is the
concatenation of the four passes. -/
theorem determine_executor_actions_order_witness :
    ctrlScenario.determine_executor_actions = .ok
      ([.create (strL "c1") ⟨strL "buy_0", 101, 50/101⟩,
        .create (strL "c1") ⟨strL "buy_1", 102, 50/102⟩,
        .create (strL "c1") ⟨strL "sell_0", 101, 50/101⟩,
        .create (strL "c1") ⟨strL "sell_1", 102, 50/102⟩] ++
       ctrlScenario.executors_to_refresh ++ ctrlScenario.executors_to_early_stop ++
       ctrlScenario.store_actions_proposal) :=
  (determine_executor_actions_order ctrlScenario _ create_actions_scenario).1

lemma gpa_activeBuy0_sell0 :
    ctrlActiveBuy0.get_price_and_amount (strL "sell_0") = .ok (101, 100/101) := by
  rw [MarketMakingControllerBase.get_price_and_amount, evalSplit_sell0]
  simp only [evalMember_sell, evalParse_0, pyStrEqTradeType, ctrlActiveBuy0, cfgOne,
    MarketMakingControllerConfigBase.get_spreads_and_amounts_in_quote,
    MarketMakingControllerConfigBase.getSpreads, MarketMakingControllerConfigBase.getAmounts,
    pyIndex, List.map, List.get?, List.length, Int.toNat]
  norm_num

lemma create_actions_activeBuy0 :
    ctrlActiveBuy0.create_actions_proposal = .ok
      [.create (strL "c1") ⟨strL "sell_0", 101, 100/101⟩] := by
  show ctrlActiveBuy0.buildCreateActions [strL "sell_0"] = _
  simp only [MarketMakingControllerBase.buildCreateActions, gpa_activeBuy0_sell0,
    MarketMakingControllerBase.get_executor_config]
  rfl

/-- Witness for C9: with the active executor bound to `buy_0` in the snapshot,
the single create action (for `sell_0`) does not target `buy_0`. -/
theorem active_level_not_in_create_actions_witness :
    (ExecutorAction.create (strL "c1")
      ⟨strL "sell_0", 101, 100/101⟩).levelId ≠ some executorBuy0.custom_level_id :=
  active_level_not_in_create_actions ctrlActiveBuy0 executorBuy0
    (List.mem_cons_self _ _) rfl _ create_actions_activeBuy0 _
    (List.mem_cons_self _ _)
